import Mathlib

/-!
Shallow embedding of the ephemeral group directory and
messaging store (file `app/(tabs)/index.tsx`, mirrored in the second source
file with identical backend logic).

Timestamps are modelled as `Int` (milliseconds since epoch), coordinates as
`ℚ`.  The JS object `Record<string, Message[]>` is modelled as an association
list in property-insertion order: assignment to an existing key replaces its
value in place, assignment to a fresh key appends it, and `delete` removes
the pair (JS objects preserve string-key insertion order under these
operations).  The floating-point comparison
`Math.sqrt(dLat*dLat + dLng*dLng) * 111 <= radiusKm` is rendered exactly
over `ℚ` by the equivalent square comparison; the lemma
`withinRadius_iff_sqrt` below proves the rendering equal to the real
square-root formula.
-/

namespace Spark

/-- A group ("spark"), as declared by `type Group` in the source. -/
structure Group where
  id : String
  name : String
  createdAt : Int
  expiresAt : Int
  lat : ℚ
  lng : ℚ
  anonymousAllowed : Bool
  icebreaker : Option String
  deriving Repr, DecidableEq

/-- A chat message, as declared by `type Message` in the source. -/
structure Message where
  id : String
  text : String
  createdAt : Int
  displayName : String
  anonymous : Bool
  deriving Repr, DecidableEq

/-- The in-memory backend state: `backend.groups` and `backend.messages`. -/
structure Backend where
  groups : List Group
  messages : List (String × List Message)
  deriving Repr, DecidableEq

/-- Reading `this.messages[groupId]`: the value stored under a key, if any. -/
def lookupMsgs (ms : List (String × List Message)) (k : String) :
    Option (List Message) :=
  (ms.find? (fun p => p.1 == k)).map (fun p => p.2)

/-- JS property assignment `this.messages[k] = v`: replaces the value of an
existing key in place, or appends a fresh key at the end. -/
def setMsgs (ms : List (String × List Message)) (k : String)
    (v : List Message) : List (String × List Message) :=
  match ms with
  | [] => [(k, v)]
  | p :: rest => if p.1 == k then (k, v) :: rest else p :: setMsgs rest k v

/-- `backend.createGroup`: pushes the group and registers an empty message
collection under its id. -/
def createGroup (b : Backend) (g : Group) : Backend :=
  { groups := b.groups ++ [g], messages := setMsgs b.messages g.id [] }

/-- The distance test of `backend.listGroupsNearby`:
`Math.sqrt(dLat*dLat + dLng*dLng) * 111 <= radiusKm`, rendered exactly over
`ℚ` as the equivalent square comparison (see `withinRadius_iff_sqrt`). -/
def withinRadius (gLat gLng lat lng radiusKm : ℚ) : Bool :=
  let dLat := gLat - lat
  let dLng := gLng - lng
  decide (0 ≤ radiusKm ∧
    (dLat * dLat + dLng * dLng) * (111 * 111) ≤ radiusKm * radiusKm)

/-- `backend.listGroupsNearby`: filters the group list by the distance test. -/
def listGroupsNearby (b : Backend) (lat lng radiusKm : ℚ) : List Group :=
  b.groups.filter (fun g => withinRadius g.lat g.lng lat lng radiusKm)

/-- `backend.postMessage`: initialises a missing collection to `[]`, then
pushes the message. -/
def postMessage (b : Backend) (groupId : String) (m : Message) : Backend :=
  { b with
    messages :=
      setMsgs b.messages groupId
        ((lookupMsgs b.messages groupId).getD [] ++ [m]) }

/-- `backend.getMessages`: `this.messages[groupId] || []` (a stored array,
even an empty one, is truthy in JS, so only a missing key yields `[]`). -/
def getMessages (b : Backend) (groupId : String) : List Message :=
  (lookupMsgs b.messages groupId).getD []

/-- `backend.removeExpired`: keeps the groups with `expiresAt > now`, then
deletes every message collection whose id has no surviving group. -/
def removeExpired (b : Backend) (now : Int) : Backend :=
  let liveGroups := b.groups.filter (fun g => decide (now < g.expiresAt))
  { groups := liveGroups,
    messages :=
      b.messages.filter
        (fun p => (liveGroups.find? (fun x => x.id == p.1)).isSome) }

/-- The comparator used by `loadNearby` in `.sort((a, b) => a.expiresAt - b.expiresAt)`. -/
def expiryLe (a b : Group) : Bool := decide (a.expiresAt ≤ b.expiresAt)

/-- `loadNearby`: sweeps (`backend.removeExpired()`), lists groups within
50 km, and sorts ascending by `expiresAt`.  Returns the swept backend and
the displayed list. -/
def loadNearby (b : Backend) (now : Int) (lat lng : ℚ) :
    Backend × List Group :=
  let b2 := removeExpired b now
  (b2, (listGroupsNearby b2 lat lng 50).mergeSort expiryLe)

/-- The `create` handler of `CreateGroupView`: builds the group with
`expiresAt = now + 24 * 60 * 60 * 1000`, a placeholder name when the input
is empty (`name || "Untitled Spark"`), and registers it.  The fresh id and
the clock are passed in explicitly. -/
def create (b : Backend) (now : Int) (newId : String) (name : String)
    (lat lng : ℚ) (anonAllowed : Bool) (icebreaker : String) :
    Backend × Group :=
  let group : Group :=
    { id := newId,
      name := if name = "" then "Untitled Spark" else name,
      createdAt := now,
      expiresAt := now + 24 * 60 * 60 * 1000,
      lat := lat,
      lng := lng,
      anonymousAllowed := anonAllowed,
      icebreaker := some icebreaker }
  (createGroup b group, group)

/-- JS `String.prototype.trim`, modelled structurally: drop whitespace
characters from both ends (the source only ever calls `text.trim()`). -/
def trimStr (s : String) : String :=
  String.mk
    (((s.data.dropWhile Char.isWhitespace).reverse.dropWhile
        Char.isWhitespace).reverse)

/-- The observable outcome of the `send` handler of `ChatView`. -/
inductive SendOutcome where
  | posted (m : Message)
  | emptyNoop
  | policyViolation (alertText : String)
  deriving Repr, DecidableEq

/-- The `send` handler of `ChatView`: returns unchanged on whitespace-only
text (`if (!text.trim()) return;`); shows an alert and returns unchanged on
an anonymous post to a group that disallows it; otherwise builds the message
(trimmed text, display name `"Anonymous"` / handle / `"Guest"`) and posts
it. -/
def send (b : Backend) (group : Group) (text : String) (anon : Bool)
    (nameHandle : String) (now : Int) (newId : String) :
    Backend × SendOutcome :=
  if trimStr text = "" then (b, SendOutcome.emptyNoop)
  else if anon && !group.anonymousAllowed then
    (b, SendOutcome.policyViolation
      "Anonymous posts are not allowed in this Spark.")
  else
    let msg : Message :=
      { id := newId,
        text := trimStr text,
        createdAt := now,
        displayName :=
          if anon then "Anonymous"
          else if nameHandle = "" then "Guest" else nameHandle,
        anonymous := anon }
    (postMessage b group.id msg, SendOutcome.posted msg)

/-! Concrete fixtures used to instantiate the theorems below. -/

/-- A live group sitting at the origin. -/
def gLive : Group :=
  { id := "g1", name := "Live", createdAt := 0, expiresAt := 100,
    lat := 0, lng := 0, anonymousAllowed := true, icebreaker := none }

/-- A backend holding just `gLive` and its empty message collection. -/
def bLive : Backend := { groups := [gLive], messages := [("g1", [])] }

/-- A group already expired at time 10. -/
def gExp : Group :=
  { id := "e1", name := "Old", createdAt := 0, expiresAt := 5,
    lat := 0, lng := 0, anonymousAllowed := true, icebreaker := none }

/-- A message fixture. -/
def mHello : Message :=
  { id := "m1", text := "hello", createdAt := 1, displayName := "Guest",
    anonymous := false }

/-- A backend holding the expired `gExp` together with one stored message. -/
def bExp : Backend := { groups := [gExp], messages := [("e1", [mHello])] }

/-- A group that disallows anonymous posts. -/
def gNoAnon : Group :=
  { id := "na1", name := "Named only", createdAt := 0, expiresAt := 86400000,
    lat := 0, lng := 0, anonymousAllowed := false, icebreaker := none }

/-- A backend holding just `gNoAnon` and its empty message collection. -/
def bNoAnon : Backend := { groups := [gNoAnon], messages := [("na1", [])] }

/-- A group 0.01 degrees of longitude away from the point (1, 2). -/
def gNear : Group :=
  { id := "n1", name := "Near", createdAt := 0, expiresAt := 100,
    lat := 1, lng := 2, anonymousAllowed := true, icebreaker := none }

/-- A group 99 degrees of latitude away from the point (1, 2). -/
def gFar : Group :=
  { id := "f1", name := "Far", createdAt := 0, expiresAt := 100,
    lat := 100, lng := 2, anonymousAllowed := true, icebreaker := none }

/-- A backend holding a near and a far group. -/
def bGeo : Backend := { groups := [gNear, gFar], messages := [] }

/-- The empty backend. -/
def bEmpty : Backend := { groups := [], messages := [] }

/-! Helper lemmas. -/

/-- Filtering twice with the same predicate equals filtering once. -/
theorem filter_idem {α : Type} (p : α → Bool) (l : List α) :
    (l.filter p).filter p = l.filter p := by
  induction l with
  | nil => rfl
  | cons a t ih => cases h : p a <;> simp [List.filter_cons, h, ih]

/-- Looking up the key just assigned by `setMsgs` yields the new value. -/
theorem lookupMsgs_setMsgs_self (ms : List (String × List Message))
    (k : String) (v : List Message) :
    lookupMsgs (setMsgs ms k v) k = some v := by
  induction ms with
  | nil => simp [setMsgs, lookupMsgs]
  | cons p rest ih =>
    cases h : (p.1 == k) with
    | true => simp [setMsgs, h, lookupMsgs]
    | false =>
      simp only [setMsgs, h, Bool.false_eq_true, if_false]
      simpa [lookupMsgs, List.find?_cons, h] using ih

/-- After a sweep at time `now`, a key all of whose groups are expired has no
message collection any more. -/
theorem lookupMsgs_removeExpired_eq_none (b : Backend) (now : Int)
    (k : String)
    (h : ∀ g ∈ b.groups, g.id = k → g.expiresAt ≤ now) :
    lookupMsgs (removeExpired b now).messages k = none := by
  have hfind :
      ((removeExpired b now).messages).find? (fun p => p.1 == k) = none := by
    rw [List.find?_eq_none]
    intro p hp hbeq
    simp only [removeExpired] at hp
    rw [List.mem_filter] at hp
    obtain ⟨hmem, hkeep⟩ := hp
    obtain ⟨x, hx⟩ := Option.isSome_iff_exists.mp hkeep
    have hxmem := List.mem_of_find?_eq_some hx
    have hxpred : x.id = p.1 := by simpa using List.find?_some hx
    rw [List.mem_filter] at hxmem
    obtain ⟨hxg, hxlive⟩ := hxmem
    have hk : p.1 = k := by simpa using hbeq
    have hle := h x hxg (hxpred.trans hk)
    have hlt : now < x.expiresAt := by simpa using hxlive
    omega
  unfold lookupMsgs
  rw [hfind]
  rfl

/-- Membership in the list produced by `loadNearby` decomposes into
membership in the original group list, liveness, and the distance test. -/
theorem mem_loadNearby {b : Backend} {now : Int} {lat lng : ℚ} {g : Group}
    (hg : g ∈ (loadNearby b now lat lng).2) :
    g ∈ b.groups ∧ now < g.expiresAt ∧
      withinRadius g.lat g.lng lat lng 50 = true := by
  simp only [loadNearby, List.mem_mergeSort, listGroupsNearby,
    removeExpired, List.mem_filter, decide_eq_true_eq] at hg
  exact ⟨hg.1.1, hg.1.2, hg.2⟩

/-- The square comparison in `withinRadius` renders the source comparison
`Math.sqrt(dLat*dLat + dLng*dLng) * 111 <= radiusKm` exactly. -/
theorem withinRadius_iff_sqrt (gLat gLng lat lng r : ℚ) :
    withinRadius gLat gLng lat lng r = true ↔
      Real.sqrt
          (((gLat - lat) * (gLat - lat) + (gLng - lng) * (gLng - lng) : ℚ) :
            ℝ) * 111 ≤ (r : ℝ) := by
  simp only [withinRadius, decide_eq_true_eq]
  set dq : ℚ := (gLat - lat) * (gLat - lat) + (gLng - lng) * (gLng - lng)
    with hdq
  have hd : (0:ℝ) ≤ (dq : ℝ) := by
    rw [hdq]
    push_cast
    exact add_nonneg (mul_self_nonneg _) (mul_self_nonneg _)
  constructor
  · rintro ⟨hr, hle⟩
    have hcast : (dq : ℝ) * (111 * 111) ≤ (r : ℝ) * (r : ℝ) := by
      exact_mod_cast hle
    calc Real.sqrt (dq : ℝ) * 111
        = Real.sqrt (dq : ℝ) * Real.sqrt (111 * 111) := by
          rw [Real.sqrt_mul_self (by norm_num : (0:ℝ) ≤ 111)]
      _ = Real.sqrt ((dq : ℝ) * (111 * 111)) := (Real.sqrt_mul hd _).symm
      _ ≤ Real.sqrt ((r : ℝ) * (r : ℝ)) := Real.sqrt_le_sqrt hcast
      _ = (r : ℝ) := Real.sqrt_mul_self (by exact_mod_cast hr)
  · intro h
    have hsq : (0:ℝ) ≤ Real.sqrt (dq : ℝ) * 111 := by positivity
    have hr : (0:ℝ) ≤ (r : ℝ) := le_trans hsq h
    refine ⟨by exact_mod_cast hr, ?_⟩
    have h2 : (Real.sqrt (dq : ℝ) * 111) * (Real.sqrt (dq : ℝ) * 111) ≤
        (r : ℝ) * (r : ℝ) := mul_self_le_mul_self hsq h
    have h3 : Real.sqrt (dq : ℝ) * Real.sqrt (dq : ℝ) = (dq : ℝ) :=
      Real.mul_self_sqrt hd
    have h4 : (dq : ℝ) * (111 * 111) ≤ (r : ℝ) * (r : ℝ) := by nlinarith
    exact_mod_cast h4

/-! Claim theorems. -/

/-- C1: every group in a `loadNearby` result is unexpired at the sweep
time of the call — the sweep removes every group with `expiresAt <= now` before
the distance filter runs, so the returned sequence contains no group with
`expiresAt ≤ now`. -/
theorem loadNearby_no_expired (b : Backend) (now : Int) (lat lng : ℚ)
    (g : Group) (hg : g ∈ (loadNearby b now lat lng).2) :
    now < g.expiresAt :=
  (mem_loadNearby hg).2.1

/-- Witness for C1: a live group at the query origin is returned and is
unexpired. -/
theorem loadNearby_no_expired_witness : (0:Int) < gLive.expiresAt := by
  apply loadNearby_no_expired bLive 0 0 0 gLive
  have hw : withinRadius gLive.lat gLive.lng 0 0 50 = true := by
    norm_num [withinRadius, gLive]
  have h1 : removeExpired bLive 0 = bLive := by decide
  have h2 : listGroupsNearby bLive 0 0 50 = [gLive] := by
    simp [listGroupsNearby, bLive, hw]
  simp [loadNearby, h1, h2]

/-- C2: once a sweep runs after the `expiresAt` of a group (and no group entry
sharing its id is still live), `getMessages` on its id is empty and the
group is absent from every subsequent `loadNearby` result: both the group
entry and its message collection are removed. -/
theorem sweep_evicts_expired (b : Backend) (now now2 : Int) (lat lng : ℚ)
    (g : Group) (hexp : g.expiresAt ≤ now)
    (hall : ∀ g0 ∈ b.groups, g0.id = g.id → g0.expiresAt ≤ now) :
    getMessages (removeExpired b now) g.id = [] ∧
    g ∉ (loadNearby (removeExpired b now) now2 lat lng).2 := by
  refine ⟨?_, ?_⟩
  · unfold getMessages
    rw [lookupMsgs_removeExpired_eq_none b now g.id hall]
    rfl
  · intro hg
    have h1 : g ∈ (removeExpired b now).groups := (mem_loadNearby hg).1
    simp only [removeExpired, List.mem_filter, decide_eq_true_eq] at h1
    obtain ⟨-, h2⟩ := h1
    omega

/-- Witness for C2: sweeping `bExp` at time 10 empties the messages of the
expired group and drops it from the nearby list. -/
theorem sweep_evicts_expired_witness :
    getMessages (removeExpired bExp 10) gExp.id = [] ∧
    gExp ∉ (loadNearby (removeExpired bExp 10) 10 0 0).2 :=
  sweep_evicts_expired bExp 10 10 0 0 gExp (by decide) (by decide)

/-- C7: every `loadNearby` result is sorted non-decreasing by `expiresAt`
(soonest-to-expire first). -/
theorem loadNearby_sorted_by_expiry (b : Backend) (now : Int)
    (lat lng : ℚ) :
    ((loadNearby b now lat lng).2).Pairwise
      (fun a c => a.expiresAt ≤ c.expiresAt) := by
  have htrans : ∀ a c d : Group, expiryLe a c → expiryLe c d →
      expiryLe a d := by
    intro a c d h1 h2
    simp only [expiryLe, decide_eq_true_eq] at h1 h2 ⊢
    omega
  have htotal : ∀ a c : Group, expiryLe a c || expiryLe c a := by
    intro a c
    simp only [expiryLe]
    by_cases h : a.expiresAt ≤ c.expiresAt
    · simp [h]
    · simp only [Bool.or_eq_true, decide_eq_true_eq]
      omega
  have hs := List.sorted_mergeSort htrans htotal
    (listGroupsNearby (removeExpired b now) lat lng 50)
  simp only [loadNearby]
  exact hs.imp (fun h => by simpa [expiryLe] using h)

/-- C8: the sweep is idempotent — sweeping twice at the same time with no
intervening writes yields the same group and message state as sweeping
once. -/
theorem removeExpired_idempotent (b : Backend) (now : Int) :
    removeExpired (removeExpired b now) now = removeExpired b now := by
  simp only [removeExpired]
  rw [filter_idem, filter_idem]

/-- C10: immediately after a sweep, every id that still owns a message
collection is the id of a group present in the live group list. -/
theorem sweep_leaves_no_orphans (b : Backend) (now : Int)
    (p : String × List Message)
    (hp : p ∈ (removeExpired b now).messages) :
    ∃ g ∈ (removeExpired b now).groups, g.id = p.1 := by
  simp only [removeExpired] at hp ⊢
  rw [List.mem_filter] at hp
  obtain ⟨hmem, hkeep⟩ := hp
  obtain ⟨x, hx⟩ := Option.isSome_iff_exists.mp hkeep
  refine ⟨x, List.mem_of_find?_eq_some hx, ?_⟩
  simpa using List.find?_some hx

/-- Witness for C10: the surviving collection of `bLive` after a sweep is
owned by a live group. -/
theorem sweep_leaves_no_orphans_witness :
    ∃ g ∈ (removeExpired bLive 0).groups,
      g.id = ("g1", ([] : List Message)).1 :=
  sweep_leaves_no_orphans bLive 0 ("g1", []) (by decide)

/-- C3 counterexample: an anonymous attempt with whitespace-only text on a
group that disallows anonymity is a silent no-op (`emptyNoop`), not a
policy-violation signal — the whitespace check in `send` precedes the
policy check, so the claim fails as stated for this input. -/
theorem send_anon_whitespace_counterexample :
    gNoAnon.anonymousAllowed = false ∧
    send bNoAnon gNoAnon " " true "ann" 0 "mC" =
      (bNoAnon, SendOutcome.emptyNoop) := by
  constructor
  · rfl
  · decide

/-- C3 amended: for every post attempt whose text is non-empty after
trimming, an anonymous post on a group with `anonymousAllowed = false` is
rejected with the policy-violation alert and the backend — in particular
the message sequence of the group — is left unchanged. -/
theorem send_anon_rejected (b : Backend) (group : Group) (text : String)
    (handle : String) (now : Int) (newId : String)
    (htext : trimStr text ≠ "") (hpol : group.anonymousAllowed = false) :
    send b group text true handle now newId =
      (b, SendOutcome.policyViolation
        "Anonymous posts are not allowed in this Spark.") := by
  simp [send, htext, hpol]

/-- Witness for the amended C3. -/
theorem send_anon_rejected_witness :
    send bNoAnon gNoAnon "hi" true "ann" 0 "mD" =
      (bNoAnon, SendOutcome.policyViolation
        "Anonymous posts are not allowed in this Spark.") :=
  send_anon_rejected bNoAnon gNoAnon "hi" "ann" 0 "mD" (by decide) rfl

/-- C4: a whitespace-only input makes `send` a silent no-op, leaving the
backend (and so every message sequence) unchanged; and any message it ever
posts carries the trimmed, non-empty text. -/
theorem send_whitespace_noop (b : Backend) (group : Group) (text : String)
    (anon : Bool) (handle : String) (now : Int) (newId : String) :
    (trimStr text = "" →
      send b group text anon handle now newId =
        (b, SendOutcome.emptyNoop)) ∧
    (∀ m : Message,
      (send b group text anon handle now newId).2 = SendOutcome.posted m →
      m.text = trimStr text ∧ m.text ≠ "") := by
  constructor
  · intro h
    simp [send, h]
  · intro m hm
    by_cases h1 : trimStr text = ""
    · simp [send, h1] at hm
    · by_cases h2 : (anon && !group.anonymousAllowed) = true
      · simp [send, h1, h2] at hm
      · simp [send, h1, h2] at hm
        subst hm
        exact ⟨rfl, h1⟩

/-- Witness for C4: a three-space input is a silent no-op. -/
theorem send_whitespace_noop_witness :
    send bLive gLive "   " false "h" 0 "mW" =
      (bLive, SendOutcome.emptyNoop) :=
  (send_whitespace_noop bLive gLive "   " false "h" 0 "mW").1 (by decide)

/-- C5: every group produced by `create` has
`expiresAt = createdAt + 24h` and `expiresAt - createdAt = 86400000 ms`
exactly, fixed at creation time. -/
theorem create_expiresAt_24h (b : Backend) (now : Int) (newId nm : String)
    (lat lng : ℚ) (anonAllowed : Bool) (ice : String) :
    ((create b now newId nm lat lng anonAllowed ice).2).expiresAt =
      ((create b now newId nm lat lng anonAllowed ice).2).createdAt +
        86400000 ∧
    ((create b now newId nm lat lng anonAllowed ice).2).expiresAt -
      ((create b now newId nm lat lng anonAllowed ice).2).createdAt =
        86400000 := by
  simp only [create]
  omega

/-- C6: the distance filter of `listGroupsNearby` includes every group at
the query origin whenever `0 ≤ radiusKm`, and excludes every group whose
Euclidean lat/lng distance exceeds `radiusKm / 111` degrees (expressed
square-free: either `radiusKm < 0`, or the squared distance times `111²`
exceeds `radiusKm²`). -/
theorem listGroupsNearby_distance_filter (b : Backend) (g : Group)
    (lat lng r : ℚ) :
    ((g ∈ b.groups ∧ g.lat = lat ∧ g.lng = lng ∧ 0 ≤ r) →
      g ∈ listGroupsNearby b lat lng r) ∧
    ((r < 0 ∨ r * r <
        ((g.lat - lat) * (g.lat - lat) + (g.lng - lng) * (g.lng - lng)) *
          (111 * 111)) →
      g ∉ listGroupsNearby b lat lng r) := by
  constructor
  · rintro ⟨hmem, hlat, hlng, hr⟩
    rw [listGroupsNearby, List.mem_filter]
    refine ⟨hmem, ?_⟩
    simp only [withinRadius, decide_eq_true_eq]
    refine ⟨hr, ?_⟩
    rw [hlat, hlng]
    simp only [sub_self, mul_zero, zero_mul, add_zero]
    exact mul_self_nonneg r
  · intro hcase hmem
    rw [listGroupsNearby, List.mem_filter] at hmem
    have hw := hmem.2
    simp only [withinRadius, decide_eq_true_eq] at hw
    obtain ⟨hr, hle⟩ := hw
    rcases hcase with h | h
    · linarith
    · linarith

/-- Witness for C6: the group at the origin is listed, the group 99 degrees
away is not, for a 5 km radius query at (1, 2). -/
theorem listGroupsNearby_distance_filter_witness :
    gNear ∈ listGroupsNearby bGeo 1 2 5 ∧
    gFar ∉ listGroupsNearby bGeo 1 2 5 :=
  ⟨(listGroupsNearby_distance_filter bGeo gNear 1 2 5).1
      ⟨by decide, rfl, rfl, by norm_num⟩,
    (listGroupsNearby_distance_filter bGeo gFar 1 2 5).2
      (Or.inr (by norm_num [gFar]))⟩

/-- C9: posting to an id with no message collection does not error: a fresh
collection is created holding exactly the posted message, and — when no
live group owns that id — the next sweep deletes the orphaned collection
again. -/
theorem postMessage_unknown_id (b : Backend) (gid : String) (m : Message)
    (now : Int) (habs : lookupMsgs b.messages gid = none)
    (hno : ∀ g ∈ b.groups, g.id ≠ gid) :
    getMessages (postMessage b gid m) gid = [m] ∧
    lookupMsgs (removeExpired (postMessage b gid m) now).messages gid =
      none := by
  refine ⟨?_, ?_⟩
  · simp [getMessages, postMessage, lookupMsgs_setMsgs_self, habs]
  · apply lookupMsgs_removeExpired_eq_none
    intro g hg hid
    simp only [postMessage] at hg
    exact absurd hid (hno g hg)

/-- Witness for C9: posting to the empty backend under an unknown id. -/
theorem postMessage_unknown_id_witness :
    getMessages (postMessage bEmpty "orphan" mHello) "orphan" = [mHello] ∧
    lookupMsgs
        (removeExpired (postMessage bEmpty "orphan" mHello) 0).messages
        "orphan" = none :=
  postMessage_unknown_id bEmpty "orphan" mHello 0 (by decide) (by decide)

end Spark
